import Mathlib

/-!
Verification of the Peloton Mesos scheduler driver (package `mesos`,
file `mhttp` scheduler driver) and of the CLI helper `ExtractHostnames`,
as a shallow embedding in Lean 4.

Effectful Go code is embedded by explicit state passing:
* the framework-info store is a concrete key-value state with
  error-injection flags (the real store is an external collaborator);
* `os.Hostname`, `ioutil.ReadFile` and `mpb.MarshalPbMessage` are fields
  of an `Env` record, each returning `Except String _` like the Go
  `(T, error)` pair;
* protobuf pointer fields (`*mesos.FrameworkID`, `*string`) are `Option`s,
  and the nil-safe proto getter `GetValue` is modelled explicitly;
* the float64 `FailoverTimeout` is only ever copied, never computed on,
  so it is modelled by an opaque numeric carrier (`Nat`).
-/

namespace Peloton

/-- `mesos.FrameworkID` protobuf message: a single optional string field. -/
structure FrameworkID where
  value : Option String
deriving DecidableEq, Repr

/-- The nil-safe proto getter `frameworkID.GetValue()`: a nil message or a
nil `Value` pointer both read as `""`. -/
def FrameworkIDValue : Option FrameworkID → String
  | none => ""
  | some f => f.value.getD ""

/-- `mesos.FrameworkInfo_Capability_Type` values used by the driver. -/
inductive Capability where
  | GPU_RESOURCES
  | TASK_KILLING_STATE
  | PARTITION_AWARE
  | REVOCABLE_RESOURCES
deriving DecidableEq, Repr

/-- `mesos.FrameworkInfo` as populated by `prepareSubscribe` (the fields
the driver sets; a capability entry is just its `Type`). -/
structure FrameworkInfo where
  user : String
  name : String
  failoverTimeout : Nat
  checkpoint : Bool
  capabilities : List Capability
  hostname : String
  principal : String
  id : Option FrameworkID
  role : Option String
deriving DecidableEq, Repr

/-- `sched.Call_Type` (only `SUBSCRIBE` is used in this file). -/
inductive CallType where
  | SUBSCRIBE
deriving DecidableEq, Repr

/-- `sched.Call` as built by `prepareSubscribe`: the `Subscribe` payload
always carries the same (mutated-in-place) `FrameworkInfo`. -/
structure Call where
  frameworkId : Option FrameworkID
  callType : CallType
  subscribe : FrameworkInfo
deriving DecidableEq, Repr

/-- `FrameworkConfig`: the framework section of the configuration. -/
structure FrameworkConfig where
  name : String
  user : String
  principal : String
  role : String
  failoverTimeout : Nat
  gpuSupported : Bool
  taskKillingStateSupported : Bool
  partitionAwareSupported : Bool
  revocableResourcesSupported : Bool
deriving DecidableEq, Repr

/-- `Config`: framework section plus the transport encoding. -/
structure Config where
  framework : FrameworkConfig
  encoding : String
deriving DecidableEq, Repr

/-- `storage.FrameworkInfoStore`, embedded as a concrete key-value state
(name-indexed maps as association lists, first binding wins) together
with error-injection flags so that the store-error paths of the driver
are reachable in the model. -/
structure Store where
  frameworkIDs : List (String × String)
  streamIDs : List (String × String)
  getFrameworkIDFails : Bool
  getStreamIDFails : Bool
  setStreamIDFails : Bool
deriving DecidableEq, Repr

/-- `store.GetFrameworkID(ctx, name)`: a missing row reads as `""`
(the driver treats `""` as absent). -/
def Store.getFrameworkID (s : Store) (name : String) : Except String String :=
  if s.getFrameworkIDFails then .error "store error"
  else .ok ((s.frameworkIDs.lookup name).getD "")

/-- `store.GetMesosStreamID(ctx, name)`. -/
def Store.getMesosStreamID (s : Store) (name : String) : Except String String :=
  if s.getStreamIDFails then .error "store error"
  else .ok ((s.streamIDs.lookup name).getD "")

/-- `store.SetMesosStreamID(ctx, name, id)`: on success the binding for
`name` is replaced. -/
def Store.setMesosStreamID (s : Store) (name id : String) :
    Except String Store :=
  if s.setStreamIDFails then .error "store error"
  else .ok { s with streamIDs := (name, id) :: s.streamIDs }

/-- HTTP headers as an association list; `Header.Set` replaces the
binding for the key, `Header.Add` appends one. -/
def headersSet (h : List (String × String)) (k v : String) :
    List (String × String) :=
  (k, v) :: h.filter (fun kv => kv.1 ≠ k)

/-- `Header.Add`. -/
def headersAdd (h : List (String × String)) (k v : String) :
    List (String × String) :=
  h ++ [(k, v)]

/-- `Header.Get`: first binding for the key, if any. -/
def headersGet : List (String × String) → String → Option String
  | [], _ => none
  | (k, v) :: t, k' => if k = k' then some v else headersGet t k'

/-- `url.URL` (the three components the driver sets). -/
structure URL where
  scheme : String
  host : String
  path : String
deriving DecidableEq, Repr

/-- The `*http.Request` built by `PrepareSubscribeRequest`.  The URL is
kept structured rather than serialised-and-reparsed: for the host:port
strings the driver receives, `http.NewRequest(url.String())` recovers
exactly these components. -/
structure HttpRequest where
  method : String
  url : URL
  headers : List (String × String)
  body : String
deriving DecidableEq, Repr

/-- The process environment: `os.Hostname`, `ioutil.ReadFile` and
`mpb.MarshalPbMessage`, each fallible as in Go. -/
structure Env where
  hostname : Except String String
  readFile : String → Except String String
  marshal : Call → String → Except String String

/-- Constant `serviceSchema`. -/
def serviceSchema : String := "http"

/-- Constant `servicePath`. -/
def servicePath : String := "/api/v1/scheduler"

/-- Constant `pelotonFrameworkID`: the magical default framework ID. -/
def pelotonFrameworkID : String := "3dcc744f-016c-6579-9b82-6325424502d2-9999"

/-- `schedulerDriver`: the driver state. -/
structure schedulerDriver where
  store : Store
  frameworkID : Option FrameworkID
  mesosStreamID : String
  cfg : FrameworkConfig
  encoding : String
  defaultHeaders : List (String × String)
deriving DecidableEq, Repr

/-- `InitSchedulerDriver`. -/
def InitSchedulerDriver (cfg : Config) (store : Store)
    (defaultHeaders : List (String × String)) : schedulerDriver :=
  { store := store
    frameworkID := none
    mesosStreamID := ""
    cfg := cfg.framework
    encoding := cfg.encoding
    defaultHeaders := defaultHeaders }

/-- `(d *schedulerDriver) GetFrameworkID(ctx)`: returns the cached ID if
present; otherwise reads the store, caching (and returning) the ID only
when the read succeeds with a non-empty value.  The pair is
(updated driver, returned pointer). -/
def schedulerDriver.GetFrameworkID (d : schedulerDriver) :
    schedulerDriver × Option FrameworkID :=
  match d.frameworkID with
  | some fid => (d, some fid)
  | none =>
    match d.store.getFrameworkID d.cfg.name with
    | .error _ => (d, none)
    | .ok v =>
      if v = "" then (d, none)
      else
        let fid : FrameworkID := { value := some v }
        ({ d with frameworkID := some fid }, some fid)

/-- `(d *schedulerDriver) GetMesosStreamID(ctx)`: reads the store on
every call; a failed read returns `""`; a successful read also stores
the value in the (otherwise unread) `mesosStreamID` field. -/
def schedulerDriver.GetMesosStreamID (d : schedulerDriver) :
    schedulerDriver × String :=
  match d.store.getMesosStreamID d.cfg.name with
  | .error _ => (d, "")
  | .ok id => ({ d with mesosStreamID := id }, id)

/-- The same code with the dead write `d.mesosStreamID = id` removed,
used to state that the cache field is dead. -/
def schedulerDriver.GetMesosStreamIDNoCache (d : schedulerDriver) :
    schedulerDriver × String :=
  match d.store.getMesosStreamID d.cfg.name with
  | .error _ => (d, "")
  | .ok id => (d, id)

/-- `(d *schedulerDriver) Endpoint()`. -/
def schedulerDriver.Endpoint (_d : schedulerDriver) : URL :=
  { scheme := serviceSchema, host := "", path := servicePath }

/-- The capability list built at the top of `prepareSubscribe`, one
entry per enabled configuration flag, in source order. -/
def configCapabilities (cfg : FrameworkConfig) : List Capability :=
  (if cfg.gpuSupported then [.GPU_RESOURCES] else []) ++
  (if cfg.taskKillingStateSupported then [.TASK_KILLING_STATE] else []) ++
  (if cfg.partitionAwareSupported then [.PARTITION_AWARE] else []) ++
  (if cfg.revocableResourcesSupported then [.REVOCABLE_RESOURCES] else [])

/-- `(d *schedulerDriver) prepareSubscribe(ctx)`: capability list from
the config flags, hostname from the environment, framework ID from
`GetFrameworkID` with the `pelotonFrameworkID` fallback for an absent or
empty ID and a warning (the third component) when the stored ID differs
from the default.  `info.Id` and the role (when configured non-empty)
are set on the shared `FrameworkInfo` before the call is returned. -/
def schedulerDriver.prepareSubscribe (d : schedulerDriver) (env : Env) :
    schedulerDriver × Except String Call × Bool :=
  let capabilities : List Capability := configCapabilities d.cfg
  match env.hostname with
  | .error e => (d, .error ("Failed to get host name: " ++ e), false)
  | .ok host =>
    let checkpoint := true
    let step := d.GetFrameworkID
    let d1 := step.1
    let fid0 := step.2
    let v := FrameworkIDValue fid0
    let fid : Option FrameworkID :=
      if v = "" then some { value := some pelotonFrameworkID } else fid0
    let warned : Bool := if v = "" then false else decide (v ≠ pelotonFrameworkID)
    let info : FrameworkInfo :=
      { user := d1.cfg.user
        name := d1.cfg.name
        failoverTimeout := d1.cfg.failoverTimeout
        checkpoint := checkpoint
        capabilities := capabilities
        hostname := host
        principal := d1.cfg.principal
        id := fid
        role := if d1.cfg.role ≠ "" then some d1.cfg.role else none }
    (d1, .ok { frameworkId := fid, callType := .SUBSCRIBE, subscribe := info },
      warned)

/-- The framework ID that `prepareSubscribe` puts in the SUBSCRIBE call:
the stored/cached ID when it reads as non-empty, otherwise the fixed
default. -/
def subscribeFrameworkID (d : schedulerDriver) : Option FrameworkID :=
  if FrameworkIDValue (d.GetFrameworkID).2 = "" then
    some { value := some pelotonFrameworkID }
  else (d.GetFrameworkID).2

/-- Whether `prepareSubscribe` emits the "Framework id is not
consistent" warning. -/
def subscribeWarned (d : schedulerDriver) : Bool :=
  if FrameworkIDValue (d.GetFrameworkID).2 = "" then false
  else decide (FrameworkIDValue (d.GetFrameworkID).2 ≠ pelotonFrameworkID)

/-- The `FrameworkInfo` that `prepareSubscribe` builds, given the local
host name. -/
def subscribeInfo (d : schedulerDriver) (host : String) : FrameworkInfo :=
  { user := (d.GetFrameworkID).1.cfg.user
    name := (d.GetFrameworkID).1.cfg.name
    failoverTimeout := (d.GetFrameworkID).1.cfg.failoverTimeout
    checkpoint := true
    capabilities := configCapabilities d.cfg
    hostname := host
    principal := (d.GetFrameworkID).1.cfg.principal
    id := subscribeFrameworkID d
    role :=
      if (d.GetFrameworkID).1.cfg.role ≠ "" then
        some (d.GetFrameworkID).1.cfg.role
      else none }

/-- `(d *schedulerDriver) PrepareSubscribeRequest(ctx, hostPort)`. -/
def schedulerDriver.PrepareSubscribeRequest (d : schedulerDriver)
    (env : Env) (mesosMasterHostPort : String) :
    schedulerDriver × Except String HttpRequest :=
  if mesosMasterHostPort = "" then
    (d, .error "No active leader detected")
  else
    let step := d.prepareSubscribe env
    let d1 := step.1
    match step.2.1 with
    | .error _ => (d1, .error "Failed prepareSubscribe")
    | .ok subscribe =>
      match env.marshal subscribe d1.encoding with
      | .error _ => (d1, .error "Failed to marshal subscribe call")
      | .ok body =>
        let url : URL :=
          { scheme := serviceSchema, host := mesosMasterHostPort,
            path := servicePath }
        let h0 : List (String × String) :=
          d1.defaultHeaders.foldl (fun h kv => headersSet h kv.1 kv.2) []
        let h1 := headersSet h0 "Content-Type" ("application/" ++ d1.encoding)
        let h2 := headersSet h1 "Accept" ("application/" ++ d1.encoding)
        (d1, .ok { method := "POST", url := url, headers := h2, body := body })

/-- `(d *schedulerDriver) PostSubscribe(ctx, mesosStreamID)`: persists
the stream ID; a failed write is only logged. -/
def schedulerDriver.PostSubscribe (d : schedulerDriver)
    (mesosStreamID : String) : schedulerDriver :=
  match d.store.setMesosStreamID d.cfg.name mesosStreamID with
  | .error _ => d
  | .ok st => { d with store := st }

/-- Go `unicode.IsSpace`: the Latin-1 whitespace runes plus the Unicode
White_Space code points. -/
def goIsSpace (c : Char) : Bool :=
  c == '\t' || c == '\n' || c == '\x0b' || c == '\x0c' || c == '\r' ||
  c == ' ' || c == '\x85' || c == '\xa0' || c == ' ' ||
  decide (0x2000 ≤ c.toNat ∧ c.toNat ≤ 0x200a) ||
  c == ' ' || c == ' ' || c == ' ' || c == ' ' ||
  c == '　'

/-- Go `strings.TrimSpace`: drop leading and trailing whitespace runes. -/
def goTrimSpace (s : String) : String :=
  String.mk (((s.data.dropWhile goIsSpace).reverse.dropWhile goIsSpace).reverse)

/-- Lexicographic order on rune sequences by code point.  Go compares
strings byte-wise, and UTF-8 is order-preserving, so this is exactly the
string order `sort.Strings` uses. -/
def charListLe : List Char → List Char → Bool
  | [], _ => true
  | _ :: _, [] => false
  | a :: as, b :: bs =>
    if a.toNat < b.toNat then true
    else if b.toNat < a.toNat then false
    else charListLe as bs

/-- Go string `≤` (byte-wise, equivalently code-point-wise). -/
def goStrLe (a b : String) : Prop := charListLe a.data b.data = true

instance : DecidableRel goStrLe := fun a b =>
  inferInstanceAs (Decidable (charListLe a.data b.data = true))

/-- The scanning loop of Go `strings.Split` for a non-empty separator:
at each position, if the remainder starts with the separator, the
accumulated field is emitted and the separator consumed; otherwise the
rune joins the accumulator.  `fuel` only bounds the recursion and is
always supplied as more than the input length, so it never runs out. -/
def splitGo (sep : List Char) : Nat → List Char → List Char →
    List (List Char)
  | 0, _, acc => [acc.reverse]
  | _ + 1, [], acc => [acc.reverse]
  | fuel + 1, c :: rest, acc =>
    if sep.isPrefixOf (c :: rest) then
      acc.reverse :: splitGo sep fuel (List.drop (sep.length - 1) rest) []
    else splitGo sep fuel rest (c :: acc)

/-- Go `strings.Split`: with a non-empty separator, split on the
leftmost non-overlapping occurrences; with an empty separator Go
explodes the string into its runes. -/
def goSplit (s sep : String) : List String :=
  if sep = "" then s.data.map (fun c => String.mk [c])
  else (splitGo sep.data (s.data.length + 1) s.data []).map String.mk

/-- The standard base64 alphabet (RFC 4648), as used by Go
`base64.StdEncoding`. -/
def base64Chars : Array Char :=
  #['A', 'B', 'C', 'D', 'E', 'F', 'G', 'H', 'I', 'J', 'K', 'L', 'M',
    'N', 'O', 'P', 'Q', 'R', 'S', 'T', 'U', 'V', 'W', 'X', 'Y', 'Z',
    'a', 'b', 'c', 'd', 'e', 'f', 'g', 'h', 'i', 'j', 'k', 'l', 'm',
    'n', 'o', 'p', 'q', 'r', 's', 't', 'u', 'v', 'w', 'x', 'y', 'z',
    '0', '1', '2', '3', '4', '5', '6', '7', '8', '9', '+', '/']

/-- The base64 digit for a 6-bit value. -/
def base64Digit (n : Nat) : Char := base64Chars.getD n 'A'

/-- UTF-8 encoding of one rune (Go strings are byte strings; a `[]byte`
conversion yields the UTF-8 bytes). -/
def utf8Bytes (c : Char) : List Nat :=
  let n := c.toNat
  if n < 0x80 then [n]
  else if n < 0x800 then [0xc0 + n / 64, 0x80 + n % 64]
  else if n < 0x10000 then
    [0xe0 + n / 4096, 0x80 + n / 64 % 64, 0x80 + n % 64]
  else
    [0xf0 + n / 262144, 0x80 + n / 4096 % 64, 0x80 + n / 64 % 64,
     0x80 + n % 64]

/-- The UTF-8 bytes of a string. -/
def strBytes (s : String) : List Nat := (s.data.map utf8Bytes).flatten

/-- Go `base64.StdEncoding.EncodeToString` on a byte list: 3-byte groups
become 4 digits; a trailing group of 1 or 2 bytes is padded with `=`. -/
def base64EncodeBytes : List Nat → String
  | [] => ""
  | [b1] => String.mk [base64Digit (b1 / 4), base64Digit (b1 % 4 * 16)] ++ "=="
  | [b1, b2] =>
    String.mk [base64Digit (b1 / 4), base64Digit (b1 % 4 * 16 + b2 / 16),
      base64Digit (b2 % 16 * 4)] ++ "="
  | b1 :: b2 :: b3 :: rest =>
    String.mk [base64Digit (b1 / 4), base64Digit (b1 % 4 * 16 + b2 / 16),
      base64Digit (b2 % 16 * 4 + b3 / 64), base64Digit (b3 % 64)] ++
    base64EncodeBytes rest

/-- Go `base64.StdEncoding.EncodeToString([]byte(s))`. -/
def base64StdEncode (s : String) : String := base64EncodeBytes (strBytes s)

/-- `GetAuthHeader(config, secretPath)`: an empty principal or an empty
secret path returns an empty header; otherwise the secret file is read
(propagating a read error), trimmed, and a single
`Authorization: Basic base64(principal:secret)` entry is added. -/
def GetAuthHeader (config : Config) (secretPath : String) (env : Env) :
    Except String (List (String × String)) :=
  let header : List (String × String) := []
  let username := config.framework.principal
  if username = "" then .ok header
  else if secretPath = "" then .ok header
  else
    match env.readFile secretPath with
    | .error e => .error e
    | .ok buf =>
      let password := goTrimSpace buf
      let auth := username ++ ":" ++ password
      let basicAuth := base64StdEncode auth
      .ok (headersAdd header "Authorization" ("Basic " ++ basicAuth))

/-- The loop body of `(c *Client) ExtractHostnames`: trim each entry,
fail on an empty or already-seen host, otherwise record it.  Modelled
from the spec: the accumulator stands for `stringset.Set`
(`pkg/common/stringset` is not part of the excerpt), a duplicate-free
unordered string set with `Contains`/`Add`/`ToSlice`; it is embedded as
the insertion-ordered list of its elements, which is sound because the
caller sorts `ToSlice`'s output, making the set's iteration order
irrelevant. -/
def extractLoop : List String → List String → Except String (List String)
  | [], seen => .ok seen
  | raw :: rest, seen =>
    let host := goTrimSpace raw
    if host = "" then .error "Host cannot be empty"
    else if seen.contains host then
      .error ("Invalid input. Duplicate entry for host " ++ host ++ " found")
    else extractLoop rest (seen ++ [host])

/-- `(c *Client) ExtractHostnames(hosts, hostSeparator)`: split, run the
checking loop, and sort the resulting host set ascending
(`sort.Strings`; Go's byte-wise string order coincides with Lean's
code-point order because UTF-8 is order-preserving). -/
def ExtractHostnames (hosts hostSeparator : String) :
    Except String (List String) :=
  match extractLoop (goSplit hosts hostSeparator) [] with
  | .error e => .error e
  | .ok slice => .ok (slice.insertionSort goStrLe)

/-- The trimmed separator-delimited entries of an input, in input order:
the reference point for the `ExtractHostnames` specification. -/
def trimmedEntries (hosts hostSeparator : String) : List String :=
  (goSplit hosts hostSeparator).map goTrimSpace

/-- A concrete framework configuration used by the witnesses. -/
def sampleCfg : FrameworkConfig :=
  { name := "peloton"
    user := "root"
    principal := "peloton-principal"
    role := "peloton-role"
    failoverTimeout := 3600
    gpuSupported := true
    taskKillingStateSupported := false
    partitionAwareSupported := true
    revocableResourcesSupported := false }

/-- A concrete store used by the witnesses. -/
def sampleStore : Store :=
  { frameworkIDs := [("peloton", "fid-1")]
    streamIDs := []
    getFrameworkIDFails := false
    getStreamIDFails := false
    setStreamIDFails := false }

/-- A concrete driver used by the witnesses. -/
def sampleDriver : schedulerDriver :=
  { store := sampleStore
    frameworkID := none
    mesosStreamID := ""
    cfg := sampleCfg
    encoding := "json"
    defaultHeaders := [("User-Agent", "peloton")] }

/-- A concrete environment used by the witnesses. -/
def sampleEnv : Env :=
  { hostname := .ok "host1"
    readFile := fun _ => .ok " s3cret\n"
    marshal := fun _ _ => .ok "body" }

/-- A concrete store with no framework ID row, used by the witnesses. -/
def emptyStore : Store :=
  { frameworkIDs := []
    streamIDs := []
    getFrameworkIDFails := false
    getStreamIDFails := false
    setStreamIDFails := false }

/-- A concrete driver over `emptyStore`, used by the witnesses. -/
def emptyDriver : schedulerDriver :=
  { store := emptyStore
    frameworkID := none
    mesosStreamID := ""
    cfg := sampleCfg
    encoding := "json"
    defaultHeaders := [] }

/-- The SUBSCRIBE call `sampleDriver` builds on `sampleEnv`, used by the
witnesses. -/
def sampleCall : Call :=
  { frameworkId := subscribeFrameworkID sampleDriver
    callType := .SUBSCRIBE
    subscribe := subscribeInfo sampleDriver "host1" }

/-- A concrete full configuration used by the witnesses. -/
def sampleConfig : Config := { framework := sampleCfg, encoding := "json" }

/-- A configuration whose principal is empty, used by the C7
counterexample. -/
def noPrincipalConfig : Config :=
  { framework := { sampleCfg with principal := "" }, encoding := "json" }

/-- The request `sampleDriver` builds for master `master:5050`, used by
the witnesses. -/
def sampleRequest : HttpRequest :=
  { method := "POST"
    url := { scheme := "http", host := "master:5050",
             path := "/api/v1/scheduler" }
    headers := [("Accept", "application/json"),
                ("Content-Type", "application/json"),
                ("User-Agent", "peloton")]
    body := "body" }

/-- Invariant of every reachable driver: a cached framework ID, when
present, has a non-empty value.  `InitSchedulerDriver` starts with no
cached ID and `GetFrameworkID` is the only writer, caching only
non-empty store values. -/
def FrameworkIDWellFormed (d : schedulerDriver) : Prop :=
  ∀ fid, d.frameworkID = some fid → FrameworkIDValue (some fid) ≠ ""

/-- `GetFrameworkID` changes no driver field other than (possibly)
`frameworkID`. -/
theorem GetFrameworkID_fields (d : schedulerDriver) :
    (d.GetFrameworkID).1.store = d.store ∧
    (d.GetFrameworkID).1.cfg = d.cfg ∧
    (d.GetFrameworkID).1.encoding = d.encoding ∧
    (d.GetFrameworkID).1.defaultHeaders = d.defaultHeaders ∧
    (d.GetFrameworkID).1.mesosStreamID = d.mesosStreamID := by
  cases hfid : d.frameworkID with
  | some fid => simp [schedulerDriver.GetFrameworkID, hfid]
  | none =>
    cases hs : d.store.getFrameworkID d.cfg.name with
    | error e => simp [schedulerDriver.GetFrameworkID, hfid, hs]
    | ok v =>
      by_cases hv : v = "" <;>
        simp [schedulerDriver.GetFrameworkID, hfid, hs, hv]

/-- On a hostname error, `prepareSubscribe` fails without touching the
driver. -/
theorem prepareSubscribe_err (d : schedulerDriver) (env : Env) (e : String)
    (henv : env.hostname = .error e) :
    d.prepareSubscribe env =
      (d, .error ("Failed to get host name: " ++ e), false) := by
  unfold schedulerDriver.prepareSubscribe
  rw [henv]

/-- On a hostname success, `prepareSubscribe` returns the driver state
after `GetFrameworkID` together with the SUBSCRIBE call described by
`subscribeFrameworkID`/`subscribeInfo` and the `subscribeWarned` flag. -/
theorem prepareSubscribe_ok (d : schedulerDriver) (env : Env) (host : String)
    (henv : env.hostname = .ok host) :
    d.prepareSubscribe env =
      ((d.GetFrameworkID).1,
        .ok { frameworkId := subscribeFrameworkID d, callType := .SUBSCRIBE,
              subscribe := subscribeInfo d host },
        subscribeWarned d) := by
  unfold schedulerDriver.prepareSubscribe
  rw [henv]
  rfl

/-- C1: whenever `prepareSubscribe` produces a SUBSCRIBE call, the call's
framework ID is non-empty, and if `GetFrameworkID` yields nil or an
empty-valued ID the call carries exactly the fixed default
`pelotonFrameworkID`. -/
theorem subscribe_frameworkID_never_empty (d : schedulerDriver) (env : Env)
    (call : Call) (h : (d.prepareSubscribe env).2.1 = .ok call) :
    FrameworkIDValue call.frameworkId ≠ "" ∧
    (FrameworkIDValue (d.GetFrameworkID).2 = "" →
      call.frameworkId = some { value := some pelotonFrameworkID }) := by
  cases henv : env.hostname with
  | error e =>
    rw [prepareSubscribe_err d env e henv] at h
    exact absurd h (by simp)
  | ok host =>
    rw [prepareSubscribe_ok d env host henv] at h
    simp only [Except.ok.injEq] at h
    subst h
    constructor
    · by_cases hv : FrameworkIDValue (d.GetFrameworkID).2 = ""
      · have hd : subscribeFrameworkID d =
            some { value := some pelotonFrameworkID } := by
          simp [subscribeFrameworkID, hv]
        simp only [hd]
        decide
      · unfold subscribeFrameworkID
        rw [if_neg hv]
        exact hv
    · intro hv
      simp [subscribeFrameworkID, hv]

/-- C1 witness: a concrete driver whose store holds no framework ID
subscribes with the fixed default, which is non-empty. -/
theorem subscribe_frameworkID_never_empty_witness :
    ((emptyDriver.prepareSubscribe sampleEnv).2.1 =
      .ok { frameworkId := some { value := some pelotonFrameworkID },
            callType := .SUBSCRIBE,
            subscribe := subscribeInfo emptyDriver "host1" }) ∧
    FrameworkIDValue
        ({ frameworkId := some { value := some pelotonFrameworkID },
           callType := .SUBSCRIBE,
           subscribe := subscribeInfo emptyDriver "host1" : Call }).frameworkId
      ≠ "" :=
  ⟨by rfl,
    (subscribe_frameworkID_never_empty emptyDriver sampleEnv
      { frameworkId := some { value := some pelotonFrameworkID },
        callType := .SUBSCRIBE,
        subscribe := subscribeInfo emptyDriver "host1" } (by rfl)).1⟩

/-- C4: persisting a stream ID with `PostSubscribe` and then reading it
back with `GetMesosStreamID` returns exactly the persisted ID, provided
the store write and read succeed. -/
theorem postSubscribe_streamID_roundtrip (d : schedulerDriver) (s : String)
    (hset : d.store.setStreamIDFails = false)
    (hget : d.store.getStreamIDFails = false) :
    ((d.PostSubscribe s).GetMesosStreamID).2 = s := by
  have h1 : d.store.setMesosStreamID d.cfg.name s =
      .ok { d.store with streamIDs := (d.cfg.name, s) :: d.store.streamIDs } := by
    simp [Store.setMesosStreamID, hset]
  unfold schedulerDriver.PostSubscribe
  rw [h1]
  simp [schedulerDriver.GetMesosStreamID, Store.getMesosStreamID, hget,
    List.lookup]

/-- C4 witness: the round trip evaluated on a concrete driver and stream
ID. -/
theorem postSubscribe_streamID_roundtrip_witness :
    sampleDriver.store.setStreamIDFails = false ∧
    sampleDriver.store.getStreamIDFails = false ∧
    ((sampleDriver.PostSubscribe "stream-42").GetMesosStreamID).2 =
      "stream-42" :=
  ⟨rfl, rfl, postSubscribe_streamID_roundtrip sampleDriver "stream-42" rfl rfl⟩

/-- `GetFrameworkID` neither reads nor keeps the `mesosStreamID` field:
running it on a driver with the field overwritten gives the same result,
with the overwritten field carried along unchanged. -/
theorem GetFrameworkID_ignores_cache (d : schedulerDriver) (s : String) :
    ({ d with mesosStreamID := s } : schedulerDriver).GetFrameworkID =
      ({ (d.GetFrameworkID).1 with mesosStreamID := s },
        (d.GetFrameworkID).2) := by
  cases hfid : d.frameworkID with
  | some fid => simp [schedulerDriver.GetFrameworkID, hfid]
  | none =>
    cases hs : d.store.getFrameworkID d.cfg.name with
    | error e => simp [schedulerDriver.GetFrameworkID, hfid, hs]
    | ok v =>
      by_cases hv : v = "" <;>
        simp [schedulerDriver.GetFrameworkID, hfid, hs, hv]

/-- The SUBSCRIBE-call ingredients do not depend on the `mesosStreamID`
field. -/
theorem subscribe_outputs_ignore_cache (d : schedulerDriver) (s : String) :
    subscribeFrameworkID { d with mesosStreamID := s } =
      subscribeFrameworkID d ∧
    subscribeWarned { d with mesosStreamID := s } = subscribeWarned d ∧
    ∀ host, subscribeInfo { d with mesosStreamID := s } host =
      subscribeInfo d host := by
  refine ⟨?_, ?_, ?_⟩ <;>
    simp [subscribeFrameworkID, subscribeWarned, subscribeInfo,
      GetFrameworkID_ignores_cache]

/-- `prepareSubscribe` neither reads nor keeps the `mesosStreamID`
field. -/
theorem prepareSubscribe_ignores_cache (d : schedulerDriver) (s : String)
    (env : Env) :
    ({ d with mesosStreamID := s } : schedulerDriver).prepareSubscribe env =
      ({ (d.prepareSubscribe env).1 with mesosStreamID := s },
        (d.prepareSubscribe env).2) := by
  cases henv : env.hostname with
  | error e =>
    rw [prepareSubscribe_err _ env e henv, prepareSubscribe_err d env e henv]
  | ok host =>
    rw [prepareSubscribe_ok _ env host henv, prepareSubscribe_ok d env host henv,
      GetFrameworkID_ignores_cache]
    simp [subscribe_outputs_ignore_cache d s, (subscribe_outputs_ignore_cache d s).2.2 host]

/-- `PrepareSubscribeRequest`'s result does not depend on the
`mesosStreamID` field. -/
theorem prepareSubscribeRequest_ignores_cache (d : schedulerDriver)
    (s : String) (env : Env) (hp : String) :
    (({ d with mesosStreamID := s } : schedulerDriver).PrepareSubscribeRequest
        env hp).2 =
      (d.PrepareSubscribeRequest env hp).2 := by
  unfold schedulerDriver.PrepareSubscribeRequest
  rw [prepareSubscribe_ignores_cache d s env]
  by_cases hhp : hp = ""
  · simp [hhp]
  · cases hc : (d.prepareSubscribe env).2.1 with
    | error e => simp [hhp, hc]
    | ok subscribe =>
      cases hm : env.marshal subscribe (d.prepareSubscribe env).1.encoding with
      | error e => simp [hhp, hc, hm]
      | ok body => simp [hhp, hc, hm]

/-- C5: the driver's `mesosStreamID` field is a dead cache.
`GetMesosStreamID` reads the store on every call and its result is
independent of the field's prior contents; the variant with the field
assignment removed returns the same value with the same store state, the
drivers differing only in the dead field; and every other driver
operation is likewise insensitive to the field. -/
theorem mesosStreamID_cache_dead (d : schedulerDriver) (s t hp : String)
    (env : Env) :
    (({ d with mesosStreamID := s } : schedulerDriver).GetMesosStreamID).2 =
      (d.GetMesosStreamID).2 ∧
    (d.GetMesosStreamIDNoCache).2 = (d.GetMesosStreamID).2 ∧
    (d.GetMesosStreamIDNoCache).1 =
      { (d.GetMesosStreamID).1 with mesosStreamID := d.mesosStreamID } ∧
    (({ d with mesosStreamID := s } : schedulerDriver).GetFrameworkID).2 =
      (d.GetFrameworkID).2 ∧
    (({ d with mesosStreamID := s } : schedulerDriver).prepareSubscribe env).2 =
      (d.prepareSubscribe env).2 ∧
    (({ d with mesosStreamID := s } : schedulerDriver).PrepareSubscribeRequest
        env hp).2 =
      (d.PrepareSubscribeRequest env hp).2 ∧
    ({ d with mesosStreamID := s } : schedulerDriver).PostSubscribe t =
      { d.PostSubscribe t with mesosStreamID := s } := by
  refine ⟨?_, ?_, ?_, ?_, ?_, ?_, ?_⟩
  · cases hs : d.store.getMesosStreamID d.cfg.name <;>
      simp [schedulerDriver.GetMesosStreamID, hs]
  · cases hs : d.store.getMesosStreamID d.cfg.name <;>
      simp [schedulerDriver.GetMesosStreamID,
        schedulerDriver.GetMesosStreamIDNoCache, hs]
  · cases hs : d.store.getMesosStreamID d.cfg.name <;>
      simp [schedulerDriver.GetMesosStreamID,
        schedulerDriver.GetMesosStreamIDNoCache, hs]
  · rw [GetFrameworkID_ignores_cache]
  · rw [prepareSubscribe_ignores_cache]
  · exact prepareSubscribeRequest_ignores_cache d s env hp
  · cases hs : d.store.setMesosStreamID d.cfg.name t <;>
      simp [schedulerDriver.PostSubscribe, hs]

/-- A freshly initialised driver is well-formed (it caches no framework
ID). -/
theorem initSchedulerDriver_wellFormed (cfg : Config) (store : Store)
    (hdrs : List (String × String)) :
    FrameworkIDWellFormed (InitSchedulerDriver cfg store hdrs) := by
  intro fid h
  simp [InitSchedulerDriver] at h

/-- On a driver with a cached framework ID, `GetFrameworkID` returns the
cache directly, with the driver unchanged. -/
theorem GetFrameworkID_cached (d : schedulerDriver) (fid : FrameworkID)
    (h : d.frameworkID = some fid) : d.GetFrameworkID = (d, some fid) := by
  unfold schedulerDriver.GetFrameworkID
  rw [h]

/-- When `GetFrameworkID` returns an ID, that ID is now cached in the
returned driver. -/
theorem GetFrameworkID_caches (d : schedulerDriver) (fid : FrameworkID)
    (h : (d.GetFrameworkID).2 = some fid) :
    (d.GetFrameworkID).1.frameworkID = some fid := by
  cases hfid : d.frameworkID with
  | some f =>
    rw [GetFrameworkID_cached d f hfid] at h ⊢
    simpa [hfid] using h
  | none =>
    cases hs : d.store.getFrameworkID d.cfg.name with
    | error e => simp [schedulerDriver.GetFrameworkID, hfid, hs] at h
    | ok v =>
      by_cases hv : v = "" <;>
        simp [schedulerDriver.GetFrameworkID, hfid, hs, hv] at h ⊢
      exact h

/-- On a well-formed driver, an ID returned by `GetFrameworkID` has a
non-empty value. -/
theorem GetFrameworkID_nonempty (d : schedulerDriver) (fid : FrameworkID)
    (hwf : FrameworkIDWellFormed d)
    (h : (d.GetFrameworkID).2 = some fid) :
    FrameworkIDValue (some fid) ≠ "" := by
  cases hfid : d.frameworkID with
  | some f =>
    rw [GetFrameworkID_cached d f hfid] at h
    simp only [Prod.snd, Option.some.injEq] at h
    subst h
    exact hwf f hfid
  | none =>
    cases hs : d.store.getFrameworkID d.cfg.name with
    | error e => simp [schedulerDriver.GetFrameworkID, hfid, hs] at h
    | ok v =>
      by_cases hv : v = ""
      · simp [schedulerDriver.GetFrameworkID, hfid, hs, hv] at h
      · simp [schedulerDriver.GetFrameworkID, hfid, hs, hv] at h
        subst h
        simpa [FrameworkIDValue] using hv

/-- `GetFrameworkID` preserves driver well-formedness. -/
theorem GetFrameworkID_preserves_wellFormed (d : schedulerDriver)
    (hwf : FrameworkIDWellFormed d) :
    FrameworkIDWellFormed (d.GetFrameworkID).1 := by
  cases hfid : d.frameworkID with
  | some f => rw [GetFrameworkID_cached d f hfid]; exact hwf
  | none =>
    cases hs : d.store.getFrameworkID d.cfg.name with
    | error e => simpa [schedulerDriver.GetFrameworkID, hfid, hs] using hwf
    | ok v =>
      by_cases hv : v = ""
      · simpa [schedulerDriver.GetFrameworkID, hfid, hs, hv] using hwf
      · intro fid h
        simp [schedulerDriver.GetFrameworkID, hfid, hs, hv] at h
        subst h
        simpa [FrameworkIDValue] using hv

/-- C2: once `GetFrameworkID` has returned an ID on a (reachable, hence
well-formed) driver, every later `GetFrameworkID` returns that same ID
with the driver unchanged even if the store contents are replaced
arbitrarily, and every later `prepareSubscribe` puts exactly that ID in
its SUBSCRIBE call. -/
theorem frameworkID_stable (d : schedulerDriver) (env : Env) (st : Store)
    (fid : FrameworkID) (hwf : FrameworkIDWellFormed d)
    (h : (d.GetFrameworkID).2 = some fid) :
    (({ (d.GetFrameworkID).1 with store := st }
        : schedulerDriver).GetFrameworkID =
      ({ (d.GetFrameworkID).1 with store := st }, some fid)) ∧
    ∀ call, (({ (d.GetFrameworkID).1 with store := st }
        : schedulerDriver).prepareSubscribe env).2.1 = .ok call →
      call.frameworkId = some fid := by
  have hcache := GetFrameworkID_caches d fid h
  have hne := GetFrameworkID_nonempty d fid hwf h
  have hd2 : ({ (d.GetFrameworkID).1 with store := st }
      : schedulerDriver).frameworkID = some fid := hcache
  have hget := GetFrameworkID_cached _ fid hd2
  refine ⟨hget, ?_⟩
  intro call hcall
  cases henv : env.hostname with
  | error e =>
    rw [prepareSubscribe_err _ env e henv] at hcall
    exact absurd hcall (by simp)
  | ok host =>
    rw [prepareSubscribe_ok _ env host henv] at hcall
    simp only [Except.ok.injEq] at hcall
    subst hcall
    show subscribeFrameworkID _ = some fid
    unfold subscribeFrameworkID
    rw [hget]
    simp [hne]

/-- C2 witness: a driver that has loaded `fid-1` keeps returning and
subscribing with `fid-1` after its store is emptied. -/
theorem frameworkID_stable_witness :
    (({ (sampleDriver.GetFrameworkID).1 with store := emptyStore }
        : schedulerDriver).GetFrameworkID =
      ({ (sampleDriver.GetFrameworkID).1 with store := emptyStore },
        some { value := some "fid-1" })) ∧
    ({ frameworkId := some { value := some "fid-1" },
       callType := .SUBSCRIBE,
       subscribe := subscribeInfo
         { (sampleDriver.GetFrameworkID).1 with store := emptyStore }
         "host1" : Call }).frameworkId = some { value := some "fid-1" } :=
  ⟨(frameworkID_stable sampleDriver sampleEnv emptyStore
      { value := some "fid-1" }
      (by intro fid h; simp [sampleDriver] at h) (by rfl)).1,
    (frameworkID_stable sampleDriver sampleEnv emptyStore
      { value := some "fid-1" }
      (by intro fid h; simp [sampleDriver] at h) (by rfl)).2
      { frameworkId := some { value := some "fid-1" },
        callType := .SUBSCRIBE,
        subscribe := subscribeInfo
          { (sampleDriver.GetFrameworkID).1 with store := emptyStore }
          "host1" } (by rfl)⟩

/-- C3: when storage yields a framework ID whose non-empty value differs
from the fixed default, `prepareSubscribe` still succeeds (given a host
name), the SUBSCRIBE call carries exactly the stored ID — not the
default — and the inconsistency warning is emitted. -/
theorem subscribe_inconsistent_id_warns (d : schedulerDriver) (env : Env)
    (host v : String) (henv : env.hostname = .ok host)
    (hv : FrameworkIDValue (d.GetFrameworkID).2 = v)
    (hne : v ≠ "") (hnd : v ≠ pelotonFrameworkID) :
    ((d.prepareSubscribe env).2.1 =
      .ok { frameworkId := (d.GetFrameworkID).2, callType := .SUBSCRIBE,
            subscribe := subscribeInfo d host }) ∧
    (d.prepareSubscribe env).2.2 = true := by
  subst hv
  have hps := prepareSubscribe_ok d env host henv
  have hfid : subscribeFrameworkID d = (d.GetFrameworkID).2 := by
    unfold subscribeFrameworkID
    rw [if_neg hne]
  constructor
  · rw [hps, hfid]
  · rw [hps]
    show subscribeWarned d = true
    unfold subscribeWarned
    rw [if_neg hne]
    exact decide_eq_true hnd

/-- C3 witness: `sampleDriver` stores `fid-1`, which differs from the
default; the subscription succeeds with `fid-1` and warns. -/
theorem subscribe_inconsistent_id_warns_witness :
    sampleEnv.hostname = .ok "host1" ∧
    FrameworkIDValue (sampleDriver.GetFrameworkID).2 = "fid-1" ∧
    "fid-1" ≠ "" ∧
    "fid-1" ≠ pelotonFrameworkID ∧
    ((sampleDriver.prepareSubscribe sampleEnv).2.1 =
      .ok { frameworkId := (sampleDriver.GetFrameworkID).2,
            callType := .SUBSCRIBE,
            subscribe := subscribeInfo sampleDriver "host1" }) ∧
    (sampleDriver.prepareSubscribe sampleEnv).2.2 = true := by
  have h := subscribe_inconsistent_id_warns sampleDriver sampleEnv "host1"
    "fid-1" rfl rfl (by decide) (by decide)
  exact ⟨rfl, rfl, by decide, by decide, h.1, h.2⟩

/-- The capability list reflects exactly the enabled configuration
flags. -/
theorem configCapabilities_mem (cfg : FrameworkConfig) (c : Capability) :
    c ∈ configCapabilities cfg ↔
      ((c = .GPU_RESOURCES ∧ cfg.gpuSupported = true) ∨
       (c = .TASK_KILLING_STATE ∧ cfg.taskKillingStateSupported = true) ∨
       (c = .PARTITION_AWARE ∧ cfg.partitionAwareSupported = true) ∨
       (c = .REVOCABLE_RESOURCES ∧
         cfg.revocableResourcesSupported = true)) := by
  unfold configCapabilities
  cases hg : cfg.gpuSupported <;>
    cases ht : cfg.taskKillingStateSupported <;>
    cases hp : cfg.partitionAwareSupported <;>
    cases hr : cfg.revocableResourcesSupported <;>
    cases c <;> decide

/-- The capability list has no duplicate entries. -/
theorem configCapabilities_nodup (cfg : FrameworkConfig) :
    (configCapabilities cfg).Nodup := by
  unfold configCapabilities
  cases cfg.gpuSupported <;>
    cases cfg.taskKillingStateSupported <;>
    cases cfg.partitionAwareSupported <;>
    cases cfg.revocableResourcesSupported <;> decide

/-- C6: the `FrameworkInfo` in every SUBSCRIBE payload has
`checkpoint = true`; its capabilities are exactly the ones whose flags
are enabled (and nothing else, without duplicates); its hostname is the
local host name; `failoverTimeout`, `user`, `name` and `principal` come
from the configuration; and `role` is present exactly when the
configured role is non-empty. -/
theorem subscribe_frameworkInfo_from_config (d : schedulerDriver)
    (env : Env) (host : String) (call : Call)
    (henv : env.hostname = .ok host)
    (h : (d.prepareSubscribe env).2.1 = .ok call) :
    call.subscribe.checkpoint = true ∧
    (∀ c : Capability, c ∈ call.subscribe.capabilities ↔
      ((c = .GPU_RESOURCES ∧ d.cfg.gpuSupported = true) ∨
       (c = .TASK_KILLING_STATE ∧ d.cfg.taskKillingStateSupported = true) ∨
       (c = .PARTITION_AWARE ∧ d.cfg.partitionAwareSupported = true) ∨
       (c = .REVOCABLE_RESOURCES ∧
         d.cfg.revocableResourcesSupported = true))) ∧
    call.subscribe.capabilities.Nodup ∧
    call.subscribe.hostname = host ∧
    call.subscribe.failoverTimeout = d.cfg.failoverTimeout ∧
    call.subscribe.user = d.cfg.user ∧
    call.subscribe.name = d.cfg.name ∧
    call.subscribe.principal = d.cfg.principal ∧
    call.subscribe.role = (if d.cfg.role ≠ "" then some d.cfg.role else none)
    := by
  rw [prepareSubscribe_ok d env host henv] at h
  simp only [Except.ok.injEq] at h
  subst h
  have hcfg : (d.GetFrameworkID).1.cfg = d.cfg := (GetFrameworkID_fields d).2.1
  refine ⟨rfl, ?_, ?_, rfl, ?_, ?_, ?_, ?_, ?_⟩
  · exact fun c => configCapabilities_mem d.cfg c
  · exact configCapabilities_nodup d.cfg
  · show (d.GetFrameworkID).1.cfg.failoverTimeout = d.cfg.failoverTimeout
    rw [hcfg]
  · show (d.GetFrameworkID).1.cfg.user = d.cfg.user
    rw [hcfg]
  · show (d.GetFrameworkID).1.cfg.name = d.cfg.name
    rw [hcfg]
  · show (d.GetFrameworkID).1.cfg.principal = d.cfg.principal
    rw [hcfg]
  · show (if (d.GetFrameworkID).1.cfg.role ≠ "" then
        some (d.GetFrameworkID).1.cfg.role else none) =
      (if d.cfg.role ≠ "" then some d.cfg.role else none)
    rw [hcfg]

/-- C6 witness: the payload built by `sampleDriver` (GPU and
partition-aware flags on, others off, role `peloton-role`) evaluated. -/
theorem subscribe_frameworkInfo_from_config_witness :
    sampleEnv.hostname = .ok "host1" ∧
    (sampleDriver.prepareSubscribe sampleEnv).2.1 = .ok sampleCall ∧
    sampleCall.subscribe.checkpoint = true ∧
    Capability.GPU_RESOURCES ∈ sampleCall.subscribe.capabilities ∧
    sampleCall.subscribe.capabilities.Nodup ∧
    sampleCall.subscribe.hostname = "host1" ∧
    sampleCall.subscribe.failoverTimeout = sampleDriver.cfg.failoverTimeout ∧
    sampleCall.subscribe.role = some "peloton-role" := by
  have h := subscribe_frameworkInfo_from_config sampleDriver sampleEnv
    "host1" sampleCall rfl (by rfl)
  refine ⟨rfl, by rfl, h.1,
    (h.2.1 .GPU_RESOURCES).mpr (Or.inl ⟨rfl, rfl⟩),
    h.2.2.1, h.2.2.2.1, h.2.2.2.2.1, by decide⟩

/-- `Header.Get` after `Header.Set` on the same key returns the just-set
value. -/
theorem headersGet_set_self (h : List (String × String)) (k v : String) :
    headersGet (headersSet h k v) k = some v := by
  simp [headersSet, headersGet]

/-- One step of `Header.Get` on a cons cell. -/
theorem headersGet_cons (k1 v1 : String) (t : List (String × String))
    (k' : String) :
    headersGet ((k1, v1) :: t) k' =
      if k1 = k' then some v1 else headersGet t k' := rfl

/-- Filtering out one key leaves lookups of other keys unchanged. -/
theorem headersGet_filter (h : List (String × String)) (k k' : String)
    (hne : k ≠ k') :
    headersGet (h.filter (fun kv => kv.1 ≠ k)) k' = headersGet h k' := by
  induction h with
  | nil => rfl
  | cons kv t ih =>
    obtain ⟨k1, v1⟩ := kv
    simp only [ne_eq, decide_not] at ih
    by_cases hk : k1 = k
    · simp only [List.filter_cons, hk, headersGet]
      simp [hne, ih]
    · by_cases hk1 : k1 = k'
      · simp only [List.filter_cons]
        simp [hk, hk1, Ne.symm hne, headersGet_cons]
      · simp only [List.filter_cons]
        simp [hk, hk1, headersGet_cons, ih]

/-- `Header.Get` after `Header.Set` on a different key is unchanged. -/
theorem headersGet_set_other (h : List (String × String)) (k v k' : String)
    (hne : k ≠ k') :
    headersGet (headersSet h k v) k' = headersGet h k' := by
  show headersGet ((k, v) :: h.filter (fun kv => kv.1 ≠ k)) k' = headersGet h k'
  rw [headersGet_cons, if_neg hne]
  exact headersGet_filter h k k' hne

/-- `prepareSubscribe` does not change the transport encoding. -/
theorem prepareSubscribe_encoding (d : schedulerDriver) (env : Env) :
    (d.prepareSubscribe env).1.encoding = d.encoding := by
  cases henv : env.hostname with
  | error e => rw [prepareSubscribe_err d env e henv]
  | ok host =>
    rw [prepareSubscribe_ok d env host henv]
    exact (GetFrameworkID_fields d).2.2.1

/-- C8: every request `PrepareSubscribeRequest` builds for a non-empty
master host:port is a POST to `/api/v1/scheduler` on that host, with
`Content-Type` and `Accept` both `application/<encoding>`. -/
theorem prepareSubscribeRequest_shape (d : schedulerDriver) (env : Env)
    (hp : String) (req : HttpRequest) (hne : hp ≠ "")
    (h : (d.PrepareSubscribeRequest env hp).2 = .ok req) :
    req.method = "POST" ∧
    req.url.scheme = "http" ∧
    req.url.host = hp ∧
    req.url.path = "/api/v1/scheduler" ∧
    headersGet req.headers "Content-Type" =
      some ("application/" ++ d.encoding) ∧
    headersGet req.headers "Accept" = some ("application/" ++ d.encoding)
    := by
  unfold schedulerDriver.PrepareSubscribeRequest at h
  rw [if_neg hne] at h
  cases hc : (d.prepareSubscribe env).2.1 with
  | error e => simp [hc] at h
  | ok subscribe =>
    cases hm : env.marshal subscribe (d.prepareSubscribe env).1.encoding with
    | error e => simp [hc, hm] at h
    | ok body =>
      simp only [hc, hm, Except.ok.injEq] at h
      subst h
      have henc := prepareSubscribe_encoding d env
      refine ⟨rfl, rfl, rfl, rfl, ?_, ?_⟩
      · rw [headersGet_set_other _ "Accept" _ "Content-Type" (by decide),
          headersGet_set_self, henc]
      · rw [headersGet_set_self, henc]

/-- C8 witness: the request built by `sampleDriver` for `master:5050`
evaluated. -/
theorem prepareSubscribeRequest_shape_witness :
    ("master:5050" : String) ≠ "" ∧
    (sampleDriver.PrepareSubscribeRequest sampleEnv "master:5050").2 =
      .ok sampleRequest ∧
    sampleRequest.method = "POST" ∧
    sampleRequest.url.host = "master:5050" ∧
    sampleRequest.url.path = "/api/v1/scheduler" ∧
    headersGet sampleRequest.headers "Content-Type" =
      some ("application/" ++ sampleDriver.encoding) ∧
    headersGet sampleRequest.headers "Accept" =
      some ("application/" ++ sampleDriver.encoding) := by
  have h := prepareSubscribeRequest_shape sampleDriver sampleEnv
    "master:5050" sampleRequest (by decide) (by rfl)
  exact ⟨by decide, by rfl, h.1, h.2.2.1, h.2.2.2.1, h.2.2.2.2.1,
    h.2.2.2.2.2⟩

/-- C7 counterexample: with a configured secret file but an empty
principal, `GetAuthHeader` returns a header with no Authorization entry,
contradicting the claim that a configured secret file alone suffices. -/
theorem getAuthHeader_claim_counterexample :
    GetAuthHeader noPrincipalConfig "/etc/mesos-secret" sampleEnv = .ok [] ∧
    headersGet [] "Authorization" = none :=
  ⟨rfl, rfl⟩

/-- C7 (amended): when the configured principal is non-empty and the
secret file read succeeds, a configured secret path yields exactly one
`Authorization: Basic base64(principal:secret)` entry (the secret being
the file contents with surrounding whitespace trimmed); with no secret
path configured the header has no Authorization entry. -/
theorem getAuthHeader_basic_scheme (config : Config) (secretPath : String)
    (env : Env) (content : String)
    (hprin : config.framework.principal ≠ "")
    (hread : env.readFile secretPath = .ok content) :
    (secretPath ≠ "" →
      GetAuthHeader config secretPath env =
        .ok [("Authorization",
          "Basic " ++ base64StdEncode
            (config.framework.principal ++ ":" ++ goTrimSpace content))]) ∧
    (secretPath = "" →
      GetAuthHeader config secretPath env = .ok [] ∧
      headersGet [] "Authorization" = none) := by
  constructor
  · intro hs
    unfold GetAuthHeader
    rw [if_neg hprin, if_neg hs, hread]
    rfl
  · intro hs
    subst hs
    unfold GetAuthHeader
    rw [if_neg hprin]
    exact ⟨rfl, rfl⟩

/-- C7 witness: the auth header for `sampleConfig` with secret file
contents ` s3cret\n`, evaluated down to the literal base64 string. -/
theorem getAuthHeader_basic_scheme_witness :
    sampleConfig.framework.principal ≠ "" ∧
    sampleEnv.readFile "/etc/mesos-secret" = .ok " s3cret\n" ∧
    GetAuthHeader sampleConfig "/etc/mesos-secret" sampleEnv =
      .ok [("Authorization",
        "Basic " ++ base64StdEncode
          (sampleConfig.framework.principal ++ ":" ++
            goTrimSpace " s3cret\n"))] ∧
    base64StdEncode "peloton-principal:s3cret" =
      "cGVsb3Rvbi1wcmluY2lwYWw6czNjcmV0" := by
  have h := getAuthHeader_basic_scheme sampleConfig "/etc/mesos-secret"
    sampleEnv " s3cret\n" (by decide) rfl
  exact ⟨by decide, rfl, h.1 (by decide), by rfl⟩

/-- C9: calling `PrepareSubscribeRequest` with an empty master host:port
fails with "No active leader detected" immediately: the driver state is
returned unchanged and the result is independent of the store contents
and the environment (so no store read or payload construction happens). -/
theorem prepareSubscribeRequest_no_leader (d : schedulerDriver) (env : Env) :
    d.PrepareSubscribeRequest env "" = (d, .error "No active leader detected") := by
  simp [schedulerDriver.PrepareSubscribeRequest]

/-- The rune-sequence order is total. -/
theorem charListLe_total : ∀ x y : List Char,
    charListLe x y = true ∨ charListLe y x = true
  | [], _ => Or.inl rfl
  | _ :: _, [] => Or.inr rfl
  | a :: as, b :: bs => by
    unfold charListLe
    rcases Nat.lt_trichotomy a.toNat b.toNat with h | h | h
    · exact Or.inl (if_pos h)
    · rw [if_neg (by omega : ¬a.toNat < b.toNat),
        if_neg (by omega : ¬b.toNat < a.toNat),
        if_neg (by omega : ¬b.toNat < a.toNat),
        if_neg (by omega : ¬a.toNat < b.toNat)]
      exact charListLe_total as bs
    · exact Or.inr (if_pos h)

/-- The rune-sequence order is transitive. -/
theorem charListLe_trans : ∀ x y z : List Char,
    charListLe x y = true → charListLe y z = true → charListLe x z = true
  | [], _, _, _, _ => rfl
  | _ :: _, [], _, h1, _ => by simp [charListLe] at h1
  | _ :: _, _ :: _, [], _, h2 => by simp [charListLe] at h2
  | a :: as, b :: bs, c :: cs, h1, h2 => by
    unfold charListLe at h1 h2 ⊢
    rcases Nat.lt_trichotomy a.toNat b.toNat with hab | hab | hab <;>
      rcases Nat.lt_trichotomy b.toNat c.toNat with hbc | hbc | hbc
    · rw [if_pos (by omega : a.toNat < c.toNat)]
    · rw [if_pos (by omega : a.toNat < c.toNat)]
    · rw [if_neg (by omega : ¬b.toNat < c.toNat), if_pos hbc] at h2
      exact Bool.noConfusion h2
    · rw [if_pos (by omega : a.toNat < c.toNat)]
    · rw [if_neg (by omega : ¬a.toNat < c.toNat),
        if_neg (by omega : ¬c.toNat < a.toNat)]
      rw [if_neg (by omega : ¬a.toNat < b.toNat),
        if_neg (by omega : ¬b.toNat < a.toNat)] at h1
      rw [if_neg (by omega : ¬b.toNat < c.toNat),
        if_neg (by omega : ¬c.toNat < b.toNat)] at h2
      exact charListLe_trans as bs cs h1 h2
    · rw [if_neg (by omega : ¬b.toNat < c.toNat), if_pos hbc] at h2
      exact Bool.noConfusion h2
    · rw [if_neg (by omega : ¬a.toNat < b.toNat), if_pos hab] at h1
      exact Bool.noConfusion h1
    · rw [if_neg (by omega : ¬a.toNat < b.toNat), if_pos hab] at h1
      exact Bool.noConfusion h1
    · rw [if_neg (by omega : ¬a.toNat < b.toNat), if_pos hab] at h1
      exact Bool.noConfusion h1

/-- `goStrLe` is total. -/
theorem goStrLe_total (a b : String) : goStrLe a b ∨ goStrLe b a :=
  charListLe_total a.data b.data

/-- `goStrLe` is transitive. -/
theorem goStrLe_trans (a b c : String) :
    goStrLe a b → goStrLe b c → goStrLe a c :=
  charListLe_trans a.data b.data c.data

/-- An `Except` value is an error exactly when it is not a success. -/
theorem except_error_iff_not_ok {ε α : Type} (x : Except ε α) :
    (∃ e, x = .error e) ↔ ¬∃ r, x = .ok r := by
  cases x <;> simp

/-- A successful `extractLoop` run returns the accumulated set followed
by the trimmed remaining entries, in input order. -/
theorem extractLoop_ok_eq : ∀ (l seen r : List String),
    extractLoop l seen = .ok r → r = seen ++ l.map goTrimSpace
  | [], seen, r, h => by
    simp [extractLoop] at h
    simp [← h]
  | raw :: rest, seen, r, h => by
    simp only [extractLoop] at h
    by_cases hh : goTrimSpace raw = ""
    · rw [if_pos hh] at h
      exact absurd h (by simp)
    · rw [if_neg hh] at h
      by_cases hc : List.contains seen (goTrimSpace raw) = true
      · rw [if_pos hc] at h
        exact absurd h (by simp)
      · rw [if_neg hc] at h
        have := extractLoop_ok_eq rest (seen ++ [goTrimSpace raw]) r h
        simpa [List.append_assoc] using this

/-- `extractLoop` succeeds exactly when no remaining entry trims to the
empty string and the trimmed entries, together with the hosts already
seen, are pairwise distinct. -/
theorem extractLoop_ok_iff : ∀ (l seen : List String), seen.Nodup →
    ((∃ r, extractLoop l seen = .ok r) ↔
      ((∀ x ∈ l.map goTrimSpace, x ≠ "") ∧
        (seen ++ l.map goTrimSpace).Nodup))
  | [], seen, hseen => by
    simp [extractLoop, hseen]
  | raw :: rest, seen, hseen => by
    simp only [extractLoop]
    by_cases hh : goTrimSpace raw = ""
    · rw [if_pos hh]
      constructor
      · rintro ⟨r, hr⟩
        simp at hr
      · rintro ⟨hall, -⟩
        exact absurd hh
          (hall _ (List.mem_map_of_mem _ (List.mem_cons_self raw rest)))
    · rw [if_neg hh]
      by_cases hc : List.contains seen (goTrimSpace raw) = true
      · rw [if_pos hc]
        have hmem : goTrimSpace raw ∈ seen := by simpa using hc
        constructor
        · rintro ⟨r, hr⟩
          simp at hr
        · rintro ⟨-, hnd⟩
          rw [List.nodup_append] at hnd
          exact (hnd.2.2 hmem
            (List.mem_map_of_mem _ (List.mem_cons_self raw rest))).elim
      · rw [if_neg hc]
        have hnmem : goTrimSpace raw ∉ seen := by simpa using hc
        have hseen2 : (seen ++ [goTrimSpace raw]).Nodup := by
          simp [List.nodup_append, hseen, hnmem]
        rw [extractLoop_ok_iff rest (seen ++ [goTrimSpace raw]) hseen2]
        simp only [List.map_cons, List.forall_mem_cons, List.append_assoc,
          List.singleton_append, ne_eq]
        constructor
        · rintro ⟨h1, h2⟩
          exact ⟨⟨hh, h1⟩, h2⟩
        · rintro ⟨⟨-, h1⟩, h2⟩
          exact ⟨h1, h2⟩

/-- C10: `ExtractHostnames` fails exactly when some separator-delimited
entry is empty after trimming or two entries coincide after trimming;
on success it returns exactly the trimmed entries, sorted ascending in
Go string order and duplicate-free. -/
theorem extractHostnames_spec (hosts sep : String) :
    ((∃ e, ExtractHostnames hosts sep = .error e) ↔
      ("" ∈ trimmedEntries hosts sep ∨ ¬(trimmedEntries hosts sep).Nodup)) ∧
    (∀ l, ExtractHostnames hosts sep = .ok l →
      l.Sorted goStrLe ∧ l.Nodup ∧ l.Perm (trimmedEntries hosts sep)) := by
  haveI : IsTotal String goStrLe := ⟨goStrLe_total⟩
  haveI : IsTrans String goStrLe := ⟨goStrLe_trans⟩
  have hiff := extractLoop_ok_iff (goSplit hosts sep) [] List.nodup_nil
  constructor
  · cases hl : extractLoop (goSplit hosts sep) [] with
    | error e =>
      have hex : ExtractHostnames hosts sep = .error e := by
        simp [ExtractHostnames, hl]
      constructor
      · intro _
        have hnok : ¬∃ r, extractLoop (goSplit hosts sep) [] = .ok r := by
          simp [hl]
        rw [hiff] at hnok
        by_cases hnd : (trimmedEntries hosts sep).Nodup
        · left
          by_contra hmem
          apply hnok
          refine ⟨?_, ?_⟩
          · intro x hx hxe
            exact hmem (hxe ▸ hx)
          · simpa [trimmedEntries] using hnd
        · right
          exact hnd
      · intro _
        exact ⟨e, hex⟩
    | ok slice =>
      have hex : ExtractHostnames hosts sep =
          .ok (slice.insertionSort goStrLe) := by
        simp [ExtractHostnames, hl]
      have hok : ∃ r, extractLoop (goSplit hosts sep) [] = .ok r :=
        ⟨slice, hl⟩
      rw [hiff] at hok
      constructor
      · rintro ⟨e', he⟩
        rw [hex] at he
        simp at he
      · rintro (hmem | hnd)
        · exact absurd rfl (hok.1 _ (by simpa [trimmedEntries] using hmem))
        · exact absurd (by simpa [trimmedEntries] using hok.2) hnd
  · intro l hl'
    cases hl : extractLoop (goSplit hosts sep) [] with
    | error e => simp [ExtractHostnames, hl] at hl'
    | ok slice =>
      simp only [ExtractHostnames, hl, Except.ok.injEq] at hl'
      subst hl'
      have hsl : slice = (goSplit hosts sep).map goTrimSpace := by
        simpa using extractLoop_ok_eq (goSplit hosts sep) [] slice hl
      have hok : ∃ r, extractLoop (goSplit hosts sep) [] = .ok r :=
        ⟨slice, hl⟩
      rw [hiff] at hok
      have hperm : (slice.insertionSort goStrLe).Perm slice :=
        List.perm_insertionSort goStrLe slice
      have hnd : slice.Nodup := by simpa [← hsl] using hok.2
      refine ⟨List.sorted_insertionSort goStrLe slice,
        hperm.symm.nodup hnd, ?_⟩
      have hte : trimmedEntries hosts sep = slice := by
        simp [trimmedEntries, hsl]
      rw [hte]
      exact hperm

/-- C10 witness: `ExtractHostnames` evaluated on a duplicate-free input
with surrounding whitespace, applying the specification at that input. -/
theorem extractHostnames_spec_witness :
    ExtractHostnames " b ,a " "," = .ok ["a", "b"] ∧
    (["a", "b"] : List String).Sorted goStrLe ∧
    (["a", "b"] : List String).Nodup ∧
    (["a", "b"] : List String).Perm (trimmedEntries " b ,a " ",") := by
  have h := (extractHostnames_spec " b ,a " ",").2 ["a", "b"] (by rfl)
  exact ⟨by rfl, h.1, h.2.1, h.2.2⟩

end Peloton
